import Mathlib

/-!
A shallow embedding of the gatehouse authorization engine (src/lib.rs) and
proofs about its evaluation semantics.

Modelling conventions:
* Rust's four generic parameters `Subject, Resource, Action, Context` become
  the type parameters `S R A C`.  Machine strings are Lean `String`s.
* A `Policy` trait object is a record holding the `evaluate_access` method and
  the `policy_type` method.  Since `evaluate_access` is an `async fn` whose
  body may perform host-side effects (resolvers, counters), evaluation is
  embedded as explicit state passing over an arbitrary effect-state type `σ`:
  `evaluate_access : S → A → R → C → σ → PolicyEvalResult × σ`.
  A pure Rust policy simply leaves `σ` untouched.
* Fallible construction (`try_new`) returns `Except EmptyPoliciesError`.
* The builder's boxed predicates `Fn(&X) -> bool` become `Option (X → Bool)`
  fields, exactly as stored in `PolicyBuilder`.
-/

/-- Rust `CombineOp` (lib.rs): the operation of a `Combined` node. -/
inductive CombineOp where
  | And
  | Or
  | Not
deriving DecidableEq, Repr

/-- Rust `PolicyEvalResult` (lib.rs): result of evaluating a single policy or
a combination. -/
inductive PolicyEvalResult where
  | Granted (policy_type : String) (reason : Option String)
  | Denied (policy_type : String) (reason : String)
  | Combined (policy_type : String) (operation : CombineOp)
      (children : List PolicyEvalResult) (outcome : Bool)

/-- Rust `PolicyEvalResult::is_granted`. -/
def PolicyEvalResult.is_granted : PolicyEvalResult → Bool
  | .Granted _ _ => true
  | .Denied _ _ => false
  | .Combined _ _ _ outcome => outcome

/-- Rust `PolicyEvalResult::reason`. -/
def PolicyEvalResult.reason : PolicyEvalResult → Option String
  | .Granted _ reason => reason
  | .Denied _ reason => some reason
  | .Combined _ _ _ _ => none

/-- Rust `EvalTrace` (lib.rs): container owning at most one root result. -/
structure EvalTrace where
  root : Option PolicyEvalResult

/-- Rust `EvalTrace::new`. -/
def EvalTrace.new : EvalTrace := ⟨none⟩

/-- Rust `EvalTrace::with_root`. -/
def EvalTrace.with_root (result : PolicyEvalResult) : EvalTrace := ⟨some result⟩

/-- Rust `AccessEvaluation` (lib.rs): the caller-facing decision. -/
inductive AccessEvaluation where
  | Granted (policy_type : String) (reason : Option String) (trace : EvalTrace)
  | Denied (trace : EvalTrace) (reason : String)

/-- Rust `AccessEvaluation::is_granted`. -/
def AccessEvaluation.is_granted : AccessEvaluation → Bool
  | .Granted _ _ _ => true
  | .Denied _ _ => false

/-- Rust `AccessEvaluation::to_result`: maps a denial into an error built from
the denial's summary reason. -/
def AccessEvaluation.to_result {E : Type} (ev : AccessEvaluation)
    (error_fn : String → E) : Except E Unit :=
  match ev with
  | .Granted _ _ _ => .ok ()
  | .Denied _ reason => .error (error_fn reason)

/-- Rust trait `Policy<S, R, A, C>`: a record of the `evaluate_access` method
(state-passing over the effect state `σ`) and the `policy_type` method. -/
structure Policy (S R A C σ : Type) where
  evaluate_access : S → A → R → C → σ → PolicyEvalResult × σ
  policy_type : String

/-- Rust constant `PERMISSION_CHECKER_POLICY_TYPE` (lib.rs line 175). -/
def PERMISSION_CHECKER_POLICY_TYPE : String := "PermissionChecker"

/-- Rust `PermissionChecker<S, R, A, C>`: an ordered list of shared policies. -/
structure PermissionChecker (S R A C σ : Type) where
  policies : List (Policy S R A C σ)

/-- Rust `PermissionChecker::new`. -/
def PermissionChecker.new {S R A C σ : Type} : PermissionChecker S R A C σ := ⟨[]⟩

/-- Rust `PermissionChecker::add_policy`: append-only. -/
def PermissionChecker.add_policy {S R A C σ : Type}
    (checker : PermissionChecker S R A C σ) (policy : Policy S R A C σ) :
    PermissionChecker S R A C σ :=
  ⟨checker.policies ++ [policy]⟩

/-- The `for policy in &self.policies` loop of
`PermissionChecker::evaluate_access` (lib.rs lines 651-721), with the
accumulating `policy_results` vector made explicit as `acc`. -/
def PermissionChecker.evalLoop {S R A C σ : Type} (s : S) (a : A) (r : R)
    (c : C) : List (Policy S R A C σ) → List PolicyEvalResult → σ →
    AccessEvaluation × σ
  | [], acc, st =>
    (.Denied
      (EvalTrace.with_root
        (.Combined PERMISSION_CHECKER_POLICY_TYPE .Or acc false))
      "All policies denied access", st)
  | policy :: rest, acc, st =>
    let pr := policy.evaluate_access s a r c st
    let acc' := acc ++ [pr.1]
    if pr.1.is_granted then
      (.Granted policy.policy_type pr.1.reason
        (EvalTrace.with_root
          (.Combined PERMISSION_CHECKER_POLICY_TYPE .Or acc' true)), pr.2)
    else
      PermissionChecker.evalLoop s a r c rest acc' pr.2

/-- Rust `PermissionChecker::evaluate_access` (lib.rs lines 627-722):
fail-closed on the empty list, otherwise OR-iterate in insertion order. -/
def PermissionChecker.evaluate_access {S R A C σ : Type}
    (checker : PermissionChecker S R A C σ) (s : S) (a : A) (r : R) (c : C)
    (st : σ) : AccessEvaluation × σ :=
  if checker.policies.isEmpty then
    (.Denied
      (EvalTrace.with_root
        (.Denied PERMISSION_CHECKER_POLICY_TYPE "No policies configured"))
      "No policies configured", st)
  else
    PermissionChecker.evalLoop s a r c checker.policies [] st

/-- Rust `EmptyPoliciesError` (lib.rs line 1261). -/
structure EmptyPoliciesError where
  message : String
deriving DecidableEq, Repr

/-- Rust `AndPolicy<S, R, A, C>` (lib.rs line 1255). -/
structure AndPolicy (S R A C σ : Type) where
  policies : List (Policy S R A C σ)

/-- Rust `AndPolicy::try_new` (lib.rs lines 1264-1272). -/
def AndPolicy.try_new {S R A C σ : Type} (policies : List (Policy S R A C σ)) :
    Except EmptyPoliciesError (AndPolicy S R A C σ) :=
  if policies.isEmpty then
    .error ⟨"AndPolicy must have at least one policy"⟩
  else
    .ok ⟨policies⟩

/-- The loop of `AndPolicy::evaluate_access` (lib.rs lines 1288-1322), with
the `children_results` vector explicit as `acc`. -/
def AndPolicy.evalLoop {S R A C σ : Type} (s : S) (a : A) (r : R) (c : C) :
    List (Policy S R A C σ) → List PolicyEvalResult → σ →
    PolicyEvalResult × σ
  | [], acc, st => (.Combined "AndPolicy" .And acc true, st)
  | policy :: rest, acc, st =>
    let pr := policy.evaluate_access s a r c st
    let acc' := acc ++ [pr.1]
    if pr.1.is_granted then
      AndPolicy.evalLoop s a r c rest acc' pr.2
    else
      (.Combined "AndPolicy" .And acc' false, pr.2)

/-- Rust `AndPolicy::evaluate_access`: short-circuit on first denial. -/
def AndPolicy.evaluate_access {S R A C σ : Type} (ap : AndPolicy S R A C σ)
    (s : S) (a : A) (r : R) (c : C) (st : σ) : PolicyEvalResult × σ :=
  AndPolicy.evalLoop s a r c ap.policies [] st

/-- Rust `OrPolicy<S, R, A, C>` (lib.rs line 1329). -/
structure OrPolicy (S R A C σ : Type) where
  policies : List (Policy S R A C σ)

/-- Rust `OrPolicy::try_new` (lib.rs lines 1334-1340). -/
def OrPolicy.try_new {S R A C σ : Type} (policies : List (Policy S R A C σ)) :
    Except EmptyPoliciesError (OrPolicy S R A C σ) :=
  if policies.isEmpty then
    .error ⟨"OrPolicy must have at least one policy"⟩
  else
    .ok ⟨policies⟩

/-- The loop of `OrPolicy::evaluate_access` (lib.rs lines 1355-1389). -/
def OrPolicy.evalLoop {S R A C σ : Type} (s : S) (a : A) (r : R) (c : C) :
    List (Policy S R A C σ) → List PolicyEvalResult → σ →
    PolicyEvalResult × σ
  | [], acc, st => (.Combined "OrPolicy" .Or acc false, st)
  | policy :: rest, acc, st =>
    let pr := policy.evaluate_access s a r c st
    let acc' := acc ++ [pr.1]
    if pr.1.is_granted then
      (.Combined "OrPolicy" .Or acc' true, pr.2)
    else
      OrPolicy.evalLoop s a r c rest acc' pr.2

/-- Rust `OrPolicy::evaluate_access`: short-circuit on first success. -/
def OrPolicy.evaluate_access {S R A C σ : Type} (op : OrPolicy S R A C σ)
    (s : S) (a : A) (r : R) (c : C) (st : σ) : PolicyEvalResult × σ :=
  OrPolicy.evalLoop s a r c op.policies [] st

/-- Rust `NotPolicy<S, R, A, C>` (lib.rs line 1396). -/
structure NotPolicy (S R A C σ : Type) where
  policy : Policy S R A C σ

/-- Rust `NotPolicy::new` (lib.rs lines 1400-1406): total, never fails. -/
def NotPolicy.new {S R A C σ : Type} (policy : Policy S R A C σ) :
    NotPolicy S R A C σ :=
  ⟨policy⟩

/-- Rust `NotPolicy::evaluate_access` (lib.rs lines 1421-1440). -/
def NotPolicy.evaluate_access {S R A C σ : Type} (np : NotPolicy S R A C σ)
    (s : S) (a : A) (r : R) (c : C) (st : σ) : PolicyEvalResult × σ :=
  let pr := np.policy.evaluate_access s a r c st
  (.Combined "NotPolicy" .Not [pr.1] (!pr.1.is_granted), pr.2)

/-- Rust `Effect` (lib.rs lines 729-732). -/
inductive Effect where
  | Allow
  | Deny
deriving DecidableEq, Repr

/-- Rust `InternalPolicy` (lib.rs lines 735-740): the policy type produced by
the builder.  Its predicate is a plain `Fn` returning `bool`, embedded as a
pure Lean function. -/
structure InternalPolicy (S R A C : Type) where
  name : String
  effect : Effect
  predicate : S → A → R → C → Bool

/-- Rust `impl Policy for InternalPolicy`, `evaluate_access`
(lib.rs lines 750-775). -/
def InternalPolicy.evaluate_access {S R A C : Type} (p : InternalPolicy S R A C)
    (s : S) (a : A) (r : R) (c : C) : PolicyEvalResult :=
  if p.predicate s a r c then
    match p.effect with
    | .Allow => .Granted p.name (some "Policy allowed access")
    | .Deny => .Denied p.name "Policy denied access"
  else
    .Denied p.name "Policy predicate did not match"

/-- Rust `PolicyBuilder` (lib.rs lines 817-832): optional per-input predicates
plus an optional combined condition and an effect. -/
structure PolicyBuilder (S R A C : Type) where
  name : String
  effect : Effect
  subject_pred : Option (S → Bool)
  action_pred : Option (A → Bool)
  resource_pred : Option (R → Bool)
  context_pred : Option (C → Bool)
  extra_condition : Option (S → A → R → C → Bool)

/-- Rust `PolicyBuilder::new` (lib.rs lines 842-852): default effect Allow,
no predicates. -/
def PolicyBuilder.new {S R A C : Type} (name : String) : PolicyBuilder S R A C :=
  ⟨name, .Allow, none, none, none, none, none⟩

/-- Rust `PolicyBuilder::effect` setter (renamed: `effect` is the field). -/
def PolicyBuilder.set_effect {S R A C : Type} (b : PolicyBuilder S R A C)
    (effect : Effect) : PolicyBuilder S R A C :=
  { b with effect := effect }

/-- Rust `PolicyBuilder::subjects`. -/
def PolicyBuilder.subjects {S R A C : Type} (b : PolicyBuilder S R A C)
    (pred : S → Bool) : PolicyBuilder S R A C :=
  { b with subject_pred := some pred }

/-- Rust `PolicyBuilder::actions`. -/
def PolicyBuilder.actions {S R A C : Type} (b : PolicyBuilder S R A C)
    (pred : A → Bool) : PolicyBuilder S R A C :=
  { b with action_pred := some pred }

/-- Rust `PolicyBuilder::resources`. -/
def PolicyBuilder.resources {S R A C : Type} (b : PolicyBuilder S R A C)
    (pred : R → Bool) : PolicyBuilder S R A C :=
  { b with resource_pred := some pred }

/-- Rust `PolicyBuilder::context`. -/
def PolicyBuilder.context {S R A C : Type} (b : PolicyBuilder S R A C)
    (pred : C → Bool) : PolicyBuilder S R A C :=
  { b with context_pred := some pred }

/-- Rust `PolicyBuilder::when`. -/
def PolicyBuilder.when {S R A C : Type} (b : PolicyBuilder S R A C)
    (pred : S → A → R → C → Bool) : PolicyBuilder S R A C :=
  { b with extra_condition := some pred }

/-- Rust `PolicyBuilder::build` (lib.rs lines 907-928): the built predicate is
the `&&`-chain of the set predicates, each absent one contributing `true`
(Rust `Option::is_none_or`). -/
def PolicyBuilder.build {S R A C : Type} (b : PolicyBuilder S R A C) :
    InternalPolicy S R A C :=
  { name := b.name
    effect := b.effect
    predicate := fun s a r c =>
      (match b.subject_pred with | none => true | some f => f s)
      && (match b.action_pred with | none => true | some f => f a)
      && (match b.resource_pred with | none => true | some f => f r)
      && (match b.context_pred with | none => true | some f => f c)
      && (match b.extra_condition with | none => true | some f => f s a r c) }

/-- Rust `AccessEvaluation::display_trace` extracts the trace of either
variant (lib.rs lines 410-418); this is that projection. -/
def AccessEvaluation.trace : AccessEvaluation → EvalTrace
  | .Granted _ _ trace => trace
  | .Denied trace _ => trace

/-- Specification vocabulary: the list of results obtained by evaluating
every policy of the list in order, threading the effect state (spec section
4.5: iterate contained policies strictly in insertion order). -/
def evalSeq {S R A C σ : Type} (s : S) (a : A) (r : R) (c : C) :
    List (Policy S R A C σ) → σ → List PolicyEvalResult × σ
  | [], st => ([], st)
  | policy :: rest, st =>
    let pr := policy.evaluate_access s a r c st
    let tail := evalSeq s a r c rest pr.2
    (pr.1 :: tail.1, tail.2)

/-- Specification vocabulary (claim C9): a policy is pure when its result
depends only on the four inputs, never on the effect state. -/
def Policy.IsPure {S R A C σ : Type} (p : Policy S R A C σ) : Prop :=
  ∀ s a r c st st',
    (p.evaluate_access s a r c st).1 = (p.evaluate_access s a r c st').1

lemma evalSeq_length {S R A C σ : Type} (s : S) (a : A) (r : R) (c : C) :
    ∀ (ps : List (Policy S R A C σ)) (st : σ),
      ((evalSeq s a r c ps st).1).length = ps.length := by
  intro ps
  induction ps with
  | nil => intro st; rfl
  | cons p rest ih => intro st; simp [evalSeq, ih]

lemma checker_evalLoop_all_denied {S R A C σ : Type} (s : S) (a : A) (r : R)
    (c : C) :
    ∀ (ps : List (Policy S R A C σ)) (acc : List PolicyEvalResult) (st : σ),
      ((evalSeq s a r c ps st).1.all fun res => !res.is_granted) = true →
      PermissionChecker.evalLoop s a r c ps acc st =
        (.Denied
          (EvalTrace.with_root
            (.Combined PERMISSION_CHECKER_POLICY_TYPE .Or
              (acc ++ (evalSeq s a r c ps st).1) false))
          "All policies denied access", (evalSeq s a r c ps st).2) := by
  intro ps
  induction ps with
  | nil => intro acc st _; simp [PermissionChecker.evalLoop, evalSeq]
  | cons p rest ih =>
    intro acc st h
    simp only [evalSeq, List.all_cons, Bool.and_eq_true, Bool.not_eq_true'] at h
    simp only [PermissionChecker.evalLoop, evalSeq, h.1, Bool.false_eq_true,
      if_false, ih _ _ h.2, List.append_assoc, List.singleton_append]

lemma checker_evalLoop_first_grant {S R A C σ : Type} (s : S) (a : A) (r : R)
    (c : C) :
    ∀ (pre : List (Policy S R A C σ)) (g : Policy S R A C σ)
      (post : List (Policy S R A C σ)) (acc : List PolicyEvalResult) (st : σ),
      ((evalSeq s a r c pre st).1.all fun res => !res.is_granted) = true →
      (g.evaluate_access s a r c (evalSeq s a r c pre st).2).1.is_granted
        = true →
      PermissionChecker.evalLoop s a r c (pre ++ g :: post) acc st =
        (.Granted g.policy_type
          (g.evaluate_access s a r c (evalSeq s a r c pre st).2).1.reason
          (EvalTrace.with_root
            (.Combined PERMISSION_CHECKER_POLICY_TYPE .Or
              (acc ++ (evalSeq s a r c pre st).1 ++
                [(g.evaluate_access s a r c (evalSeq s a r c pre st).2).1])
              true)),
         (g.evaluate_access s a r c (evalSeq s a r c pre st).2).2) := by
  intro pre
  induction pre with
  | nil =>
    intro g post acc st _ hg
    simp only [evalSeq] at hg
    simp only [List.nil_append, PermissionChecker.evalLoop, evalSeq, hg,
      if_true, List.append_nil]
  | cons p rest ih =>
    intro g post acc st h hg
    simp only [evalSeq, List.all_cons, Bool.and_eq_true,
      Bool.not_eq_true'] at h
    simp only [evalSeq] at hg
    have ihx := ih g post (acc ++ [(p.evaluate_access s a r c st).1])
      (p.evaluate_access s a r c st).2 h.2 hg
    simp only [List.cons_append, PermissionChecker.evalLoop, evalSeq, h.1,
      Bool.false_eq_true, if_false, List.append_assoc, List.singleton_append]
    simpa using ihx

lemma and_evalLoop_all_granted {S R A C σ : Type} (s : S) (a : A) (r : R)
    (c : C) :
    ∀ (ps : List (Policy S R A C σ)) (acc : List PolicyEvalResult) (st : σ),
      ((evalSeq s a r c ps st).1.all PolicyEvalResult.is_granted) = true →
      AndPolicy.evalLoop s a r c ps acc st =
        (.Combined "AndPolicy" .And (acc ++ (evalSeq s a r c ps st).1) true,
         (evalSeq s a r c ps st).2) := by
  intro ps
  induction ps with
  | nil => intro acc st _; simp [AndPolicy.evalLoop, evalSeq]
  | cons p rest ih =>
    intro acc st h
    simp only [evalSeq, List.all_cons, Bool.and_eq_true] at h
    simp only [AndPolicy.evalLoop, evalSeq, h.1, if_true, ih _ _ h.2,
      List.append_assoc, List.singleton_append]

lemma and_evalLoop_first_denied {S R A C σ : Type} (s : S) (a : A) (r : R)
    (c : C) :
    ∀ (pre : List (Policy S R A C σ)) (d : Policy S R A C σ)
      (post : List (Policy S R A C σ)) (acc : List PolicyEvalResult) (st : σ),
      ((evalSeq s a r c pre st).1.all PolicyEvalResult.is_granted) = true →
      (d.evaluate_access s a r c (evalSeq s a r c pre st).2).1.is_granted
        = false →
      AndPolicy.evalLoop s a r c (pre ++ d :: post) acc st =
        (.Combined "AndPolicy" .And
          (acc ++ (evalSeq s a r c pre st).1 ++
            [(d.evaluate_access s a r c (evalSeq s a r c pre st).2).1])
          false,
         (d.evaluate_access s a r c (evalSeq s a r c pre st).2).2) := by
  intro pre
  induction pre with
  | nil =>
    intro d post acc st _ hd
    simp only [evalSeq] at hd
    simp only [List.nil_append, AndPolicy.evalLoop, evalSeq, hd,
      Bool.false_eq_true, if_false, List.append_nil]
  | cons p rest ih =>
    intro d post acc st h hd
    simp only [evalSeq, List.all_cons, Bool.and_eq_true] at h
    simp only [evalSeq] at hd
    have ihx := ih d post (acc ++ [(p.evaluate_access s a r c st).1])
      (p.evaluate_access s a r c st).2 h.2 hd
    simp only [List.cons_append, AndPolicy.evalLoop, evalSeq, h.1, if_true,
      List.append_assoc, List.singleton_append]
    simpa using ihx

lemma or_evalLoop_all_denied {S R A C σ : Type} (s : S) (a : A) (r : R)
    (c : C) :
    ∀ (ps : List (Policy S R A C σ)) (acc : List PolicyEvalResult) (st : σ),
      ((evalSeq s a r c ps st).1.all fun res => !res.is_granted) = true →
      OrPolicy.evalLoop s a r c ps acc st =
        (.Combined "OrPolicy" .Or (acc ++ (evalSeq s a r c ps st).1) false,
         (evalSeq s a r c ps st).2) := by
  intro ps
  induction ps with
  | nil => intro acc st _; simp [OrPolicy.evalLoop, evalSeq]
  | cons p rest ih =>
    intro acc st h
    simp only [evalSeq, List.all_cons, Bool.and_eq_true,
      Bool.not_eq_true'] at h
    simp only [OrPolicy.evalLoop, evalSeq, h.1, Bool.false_eq_true, if_false,
      ih _ _ h.2, List.append_assoc, List.singleton_append]

lemma or_evalLoop_first_granted {S R A C σ : Type} (s : S) (a : A) (r : R)
    (c : C) :
    ∀ (pre : List (Policy S R A C σ)) (g : Policy S R A C σ)
      (post : List (Policy S R A C σ)) (acc : List PolicyEvalResult) (st : σ),
      ((evalSeq s a r c pre st).1.all fun res => !res.is_granted) = true →
      (g.evaluate_access s a r c (evalSeq s a r c pre st).2).1.is_granted
        = true →
      OrPolicy.evalLoop s a r c (pre ++ g :: post) acc st =
        (.Combined "OrPolicy" .Or
          (acc ++ (evalSeq s a r c pre st).1 ++
            [(g.evaluate_access s a r c (evalSeq s a r c pre st).2).1])
          true,
         (g.evaluate_access s a r c (evalSeq s a r c pre st).2).2) := by
  intro pre
  induction pre with
  | nil =>
    intro g post acc st _ hg
    simp only [evalSeq] at hg
    simp only [List.nil_append, OrPolicy.evalLoop, evalSeq, hg, if_true,
      List.append_nil]
  | cons p rest ih =>
    intro g post acc st h hg
    simp only [evalSeq, List.all_cons, Bool.and_eq_true,
      Bool.not_eq_true'] at h
    simp only [evalSeq] at hg
    have ihx := ih g post (acc ++ [(p.evaluate_access s a r c st).1])
      (p.evaluate_access s a r c st).2 h.2 hg
    simp only [List.cons_append, OrPolicy.evalLoop, evalSeq, h.1,
      Bool.false_eq_true, if_false, List.append_assoc, List.singleton_append]
    simpa using ihx

lemma perm_all_eq {α : Type} {l₁ l₂ : List α} (h : l₁.Perm l₂) (f : α → Bool) :
    l₁.all f = l₂.all f := by
  induction h with
  | nil => rfl
  | cons x _ ih => simp [List.all_cons, ih]
  | swap x y l => simp only [List.all_cons]; cases f y <;> cases f x <;> simp
  | trans _ _ ih1 ih2 => rw [ih1, ih2]

lemma perm_any_eq {α : Type} {l₁ l₂ : List α} (h : l₁.Perm l₂) (f : α → Bool) :
    l₁.any f = l₂.any f := by
  induction h with
  | nil => rfl
  | cons x _ ih => simp [List.any_cons, ih]
  | swap x y l => simp only [List.any_cons]; cases f y <;> cases f x <;> simp
  | trans _ _ ih1 ih2 => rw [ih1, ih2]

lemma and_evalLoop_char {S R A C σ : Type} (s : S) (a : A) (r : R) (c : C) :
    ∀ (ps : List (Policy S R A C σ)) (acc : List PolicyEvalResult) (st : σ),
      acc.all PolicyEvalResult.is_granted = true →
      ∃ n, n ≤ ps.length ∧
        AndPolicy.evalLoop s a r c ps acc st =
          (.Combined "AndPolicy" .And
            (acc ++ (evalSeq s a r c (ps.take n) st).1)
            ((acc ++ (evalSeq s a r c (ps.take n) st).1).all
              PolicyEvalResult.is_granted),
           (evalSeq s a r c (ps.take n) st).2) := by
  intro ps
  induction ps with
  | nil =>
    intro acc st hacc
    exact ⟨0, Nat.le_refl 0,
      by simp [AndPolicy.evalLoop, evalSeq, List.take_nil, hacc]⟩
  | cons p rest ih =>
    intro acc st hacc
    by_cases hp : (p.evaluate_access s a r c st).1.is_granted = true
    · obtain ⟨n, hn, he⟩ :=
        ih (acc ++ [(p.evaluate_access s a r c st).1])
          (p.evaluate_access s a r c st).2
          (by simp [List.all_append, hacc, hp])
      refine ⟨n + 1, by simpa using Nat.succ_le_succ hn, ?_⟩
      simp only [AndPolicy.evalLoop, hp, if_true, List.take_succ_cons,
        evalSeq]
      simpa [List.append_assoc] using he
    · have hp' : (p.evaluate_access s a r c st).1.is_granted = false := by
        simpa using hp
      refine ⟨1, by simp, ?_⟩
      simp [AndPolicy.evalLoop, hp', evalSeq, List.all_append, hacc]

lemma or_evalLoop_char {S R A C σ : Type} (s : S) (a : A) (r : R) (c : C) :
    ∀ (ps : List (Policy S R A C σ)) (acc : List PolicyEvalResult) (st : σ),
      (acc.all fun res => !res.is_granted) = true →
      ∃ n, n ≤ ps.length ∧
        OrPolicy.evalLoop s a r c ps acc st =
          (.Combined "OrPolicy" .Or
            (acc ++ (evalSeq s a r c (ps.take n) st).1)
            ((acc ++ (evalSeq s a r c (ps.take n) st).1).any
              PolicyEvalResult.is_granted),
           (evalSeq s a r c (ps.take n) st).2) := by
  intro ps
  induction ps with
  | nil =>
    intro acc st hacc
    refine ⟨0, Nat.le_refl 0, ?_⟩
    have : acc.any PolicyEvalResult.is_granted = false := by
      simp only [List.all_eq_true, Bool.not_eq_true'] at hacc
      simp [List.any_eq_false]
      intro x hx
      simp [hacc x hx]
    simp [OrPolicy.evalLoop, evalSeq, List.take_nil, this]
  | cons p rest ih =>
    intro acc st hacc
    by_cases hp : (p.evaluate_access s a r c st).1.is_granted = true
    · refine ⟨1, by simp, ?_⟩
      simp [OrPolicy.evalLoop, hp, evalSeq, List.any_append, hacc]
    · have hp' : (p.evaluate_access s a r c st).1.is_granted = false := by
        simpa using hp
      obtain ⟨n, hn, he⟩ :=
        ih (acc ++ [(p.evaluate_access s a r c st).1])
          (p.evaluate_access s a r c st).2
          (by simp [List.all_append, hacc, hp'])
      refine ⟨n + 1, by simpa using Nat.succ_le_succ hn, ?_⟩
      simp only [OrPolicy.evalLoop, hp', Bool.false_eq_true, if_false,
        List.take_succ_cons, evalSeq]
      simpa [List.append_assoc] using he

lemma checker_evalLoop_char {S R A C σ : Type} (s : S) (a : A) (r : R)
    (c : C) :
    ∀ (ps : List (Policy S R A C σ)) (acc : List PolicyEvalResult) (st : σ),
      (acc.all fun res => !res.is_granted) = true →
      ∃ n, n ≤ ps.length ∧
        ((PermissionChecker.evalLoop s a r c ps acc st).1).trace =
          EvalTrace.with_root
            (.Combined PERMISSION_CHECKER_POLICY_TYPE .Or
              (acc ++ (evalSeq s a r c (ps.take n) st).1)
              ((acc ++ (evalSeq s a r c (ps.take n) st).1).any
                PolicyEvalResult.is_granted)) := by
  intro ps
  induction ps with
  | nil =>
    intro acc st hacc
    refine ⟨0, Nat.le_refl 0, ?_⟩
    have : acc.any PolicyEvalResult.is_granted = false := by
      simp only [List.all_eq_true, Bool.not_eq_true'] at hacc
      simp [List.any_eq_false]
      intro x hx
      simp [hacc x hx]
    simp [PermissionChecker.evalLoop, evalSeq, List.take_nil, this,
      AccessEvaluation.trace]
  | cons p rest ih =>
    intro acc st hacc
    by_cases hp : (p.evaluate_access s a r c st).1.is_granted = true
    · refine ⟨1, by simp, ?_⟩
      simp [PermissionChecker.evalLoop, hp, evalSeq, List.any_append, hacc,
        AccessEvaluation.trace]
    · have hp' : (p.evaluate_access s a r c st).1.is_granted = false := by
        simpa using hp
      obtain ⟨n, hn, he⟩ :=
        ih (acc ++ [(p.evaluate_access s a r c st).1])
          (p.evaluate_access s a r c st).2
          (by simp [List.all_append, hacc, hp'])
      refine ⟨n + 1, by simpa using Nat.succ_le_succ hn, ?_⟩
      simp only [PermissionChecker.evalLoop, hp', Bool.false_eq_true,
        if_false, List.take_succ_cons, evalSeq]
      simpa [List.append_assoc] using he

lemma and_evalLoop_pure_outcome {S R A C σ : Type} (s : S) (a : A) (r : R)
    (c : C) (st0 : σ) :
    ∀ (ps : List (Policy S R A C σ)), (∀ p ∈ ps, p.IsPure) →
    ∀ (acc : List PolicyEvalResult) (st : σ),
      ((AndPolicy.evalLoop s a r c ps acc st).1).is_granted =
        ps.all fun p => (p.evaluate_access s a r c st0).1.is_granted := by
  intro ps
  induction ps with
  | nil => intro _ acc st; simp [AndPolicy.evalLoop, PolicyEvalResult.is_granted]
  | cons p rest ih =>
    intro hpure acc st
    have hres : (p.evaluate_access s a r c st).1.is_granted =
        (p.evaluate_access s a r c st0).1.is_granted := by
      rw [hpure p (List.mem_cons_self p rest) s a r c st st0]
    by_cases hp : (p.evaluate_access s a r c st0).1.is_granted = true
    · simp only [AndPolicy.evalLoop, hres, hp, if_true, List.all_cons,
        Bool.true_and]
      exact ih (fun q hq => hpure q (List.mem_cons_of_mem p hq)) _ _
    · have hp' : (p.evaluate_access s a r c st0).1.is_granted = false := by
        simpa using hp
      have hcond : (p.evaluate_access s a r c st).1.is_granted = false := by
        rw [hres]; exact hp'
      simp only [AndPolicy.evalLoop, hcond, Bool.false_eq_true, if_false,
        List.all_cons, hp', Bool.false_and]
      rfl

lemma or_evalLoop_pure_outcome {S R A C σ : Type} (s : S) (a : A) (r : R)
    (c : C) (st0 : σ) :
    ∀ (ps : List (Policy S R A C σ)), (∀ p ∈ ps, p.IsPure) →
    ∀ (acc : List PolicyEvalResult) (st : σ),
      ((OrPolicy.evalLoop s a r c ps acc st).1).is_granted =
        ps.any fun p => (p.evaluate_access s a r c st0).1.is_granted := by
  intro ps
  induction ps with
  | nil => intro _ acc st; simp [OrPolicy.evalLoop, PolicyEvalResult.is_granted]
  | cons p rest ih =>
    intro hpure acc st
    have hres : (p.evaluate_access s a r c st).1.is_granted =
        (p.evaluate_access s a r c st0).1.is_granted := by
      rw [hpure p (List.mem_cons_self p rest) s a r c st st0]
    by_cases hp : (p.evaluate_access s a r c st0).1.is_granted = true
    · have hcond : (p.evaluate_access s a r c st).1.is_granted = true := by
        rw [hres]; exact hp
      simp only [OrPolicy.evalLoop, hcond, if_true, List.any_cons, hp,
        Bool.true_or]
      rfl
    · have hp' : (p.evaluate_access s a r c st0).1.is_granted = false := by
        simpa using hp
      simp only [OrPolicy.evalLoop, hres, hp', Bool.false_eq_true, if_false,
        List.any_cons, Bool.false_or]
      exact ih (fun q hq => hpure q (List.mem_cons_of_mem p hq)) _ _

/-- Test fixture: a policy that always denies and counts its invocations in
the effect state. -/
def alwaysDenyPolicy : Policy Unit Unit Unit Unit Nat :=
  ⟨fun _ _ _ _ st => (.Denied "AlwaysDeny" "always denies", st + 1),
   "AlwaysDeny"⟩

/-- Test fixture: a policy that always grants and counts its invocations in
the effect state. -/
def alwaysAllowPolicy : Policy Unit Unit Unit Unit Nat :=
  ⟨fun _ _ _ _ st => (.Granted "AlwaysAllow" (some "always allows"), st + 1),
   "AlwaysAllow"⟩

/-- Test fixture: a granting policy whose `policy_type()` method returns a
name different from the `policy_type` field inside the result it produces.
The `Policy` trait does not force those two to agree. -/
def mislabeledAllowPolicy : Policy Unit Unit Unit Unit Nat :=
  ⟨fun _ _ _ _ st => (.Granted "InnerResultName" none, st),
   "DeclaredPolicyName"⟩

lemma alwaysDenyPolicy_pure : alwaysDenyPolicy.IsPure :=
  fun _ _ _ _ _ _ => rfl

lemma alwaysAllowPolicy_pure : alwaysAllowPolicy.IsPure :=
  fun _ _ _ _ _ _ => rfl

/-- C1 counterexample: the `policy_type` of a Granted `AccessEvaluation` is
taken from the granting policy's `policy_type()` method, not from that
policy's evaluation result: with a policy whose method returns
"DeclaredPolicyName" but whose result carries "InnerResultName", the checker
returns "DeclaredPolicyName". -/
theorem checker_granted_policy_type_cex :
    PermissionChecker.evaluate_access
      (⟨[mislabeledAllowPolicy]⟩ : PermissionChecker Unit Unit Unit Unit Nat)
      () () () () 0 =
      (.Granted "DeclaredPolicyName" none
        (EvalTrace.with_root
          (.Combined PERMISSION_CHECKER_POLICY_TYPE .Or
            [.Granted "InnerResultName" none] true)), 0)
    ∧ "DeclaredPolicyName" ≠ "InnerResultName" :=
  ⟨rfl, by decide⟩

/-- C1 (amended): if every policy before `g` denies along the execution and
`g` grants, `evaluate_access` returns Granted with `policy_type` from `g`'s
`policy_type()` method, `reason` from `g`'s evaluation result, and a trace
root `Combined{OR, true}` whose children are every result evaluated so far in
evaluation order, the granting one included; the policies after `g` are never
invoked (the whole output, effect state included, is unchanged when they are
replaced by any other list). -/
theorem checker_first_grant_spec {S R A C σ : Type} (s : S) (a : A) (r : R)
    (c : C) (st : σ) (pre post post' : List (Policy S R A C σ))
    (g : Policy S R A C σ)
    (hdeny : ((evalSeq s a r c pre st).1.all fun res => !res.is_granted)
      = true)
    (hg : (g.evaluate_access s a r c (evalSeq s a r c pre st).2).1.is_granted
      = true) :
    PermissionChecker.evaluate_access ⟨pre ++ g :: post⟩ s a r c st =
      (.Granted g.policy_type
        (g.evaluate_access s a r c (evalSeq s a r c pre st).2).1.reason
        (EvalTrace.with_root
          (.Combined PERMISSION_CHECKER_POLICY_TYPE .Or
            ((evalSeq s a r c pre st).1 ++
              [(g.evaluate_access s a r c (evalSeq s a r c pre st).2).1])
            true)),
       (g.evaluate_access s a r c (evalSeq s a r c pre st).2).2)
    ∧ PermissionChecker.evaluate_access ⟨pre ++ g :: post⟩ s a r c st =
        PermissionChecker.evaluate_access ⟨pre ++ g :: post'⟩ s a r c st := by
  have hmain := checker_evalLoop_first_grant s a r c pre g post [] st hdeny hg
  have hmain' :=
    checker_evalLoop_first_grant s a r c pre g post' [] st hdeny hg
  have hne : (pre ++ g :: post).isEmpty = false := by cases pre <;> rfl
  have hne' : (pre ++ g :: post').isEmpty = false := by cases pre <;> rfl
  simp only [List.nil_append] at hmain hmain'
  constructor
  · simp [PermissionChecker.evaluate_access, hne, hmain]
  · simp [PermissionChecker.evaluate_access, hne, hne', hmain, hmain']

/-- Witness for the amended C1 theorem at `[AlwaysDeny, AlwaysAllow,
AlwaysDeny]`, also run with the suffix removed. -/
theorem checker_first_grant_spec_witness :
    (((evalSeq () () () () [alwaysDenyPolicy] 0).1.all
        fun res => !res.is_granted) = true)
    ∧ ((alwaysAllowPolicy.evaluate_access () () () ()
        (evalSeq () () () () [alwaysDenyPolicy] 0).2).1.is_granted = true)
    ∧ (PermissionChecker.evaluate_access
        ⟨[alwaysDenyPolicy] ++ alwaysAllowPolicy :: [alwaysDenyPolicy]⟩
        () () () () 0 =
        (.Granted alwaysAllowPolicy.policy_type
          (alwaysAllowPolicy.evaluate_access () () () ()
            (evalSeq () () () () [alwaysDenyPolicy] 0).2).1.reason
          (EvalTrace.with_root
            (.Combined PERMISSION_CHECKER_POLICY_TYPE .Or
              ((evalSeq () () () () [alwaysDenyPolicy] 0).1 ++
                [(alwaysAllowPolicy.evaluate_access () () () ()
                  (evalSeq () () () () [alwaysDenyPolicy] 0).2).1])
              true)),
         (alwaysAllowPolicy.evaluate_access () () () ()
           (evalSeq () () () () [alwaysDenyPolicy] 0).2).2)
      ∧ PermissionChecker.evaluate_access
          ⟨[alwaysDenyPolicy] ++ alwaysAllowPolicy :: [alwaysDenyPolicy]⟩
          () () () () 0 =
        PermissionChecker.evaluate_access
          ⟨[alwaysDenyPolicy] ++ alwaysAllowPolicy :: []⟩ () () () () 0) :=
  ⟨rfl, rfl,
    checker_first_grant_spec () () () () 0 [alwaysDenyPolicy]
      [alwaysDenyPolicy] [] alwaysAllowPolicy rfl rfl⟩

/-- C2: a checker with zero policies always returns Denied with reason
"No policies configured", and the trace root is a single synthetic Denied
leaf (not a Combined node) carrying that same reason. -/
theorem checker_no_policies_spec {S R A C σ : Type} (s : S) (a : A) (r : R)
    (c : C) (st : σ) :
    PermissionChecker.evaluate_access
      (⟨[]⟩ : PermissionChecker S R A C σ) s a r c st =
      (.Denied
        (EvalTrace.with_root
          (.Denied PERMISSION_CHECKER_POLICY_TYPE "No policies configured"))
        "No policies configured", st) := rfl

/-- C3: a non-empty checker in which every policy denies along the execution
returns Denied with reason "All policies denied access", and the trace root
is `Combined{OR, false}` with exactly one child per policy, in insertion
order. -/
theorem checker_all_denied_spec {S R A C σ : Type} (s : S) (a : A) (r : R)
    (c : C) (st : σ) (ps : List (Policy S R A C σ)) (hne : ps ≠ [])
    (hdeny : ((evalSeq s a r c ps st).1.all fun res => !res.is_granted)
      = true) :
    PermissionChecker.evaluate_access ⟨ps⟩ s a r c st =
      (.Denied
        (EvalTrace.with_root
          (.Combined PERMISSION_CHECKER_POLICY_TYPE .Or
            (evalSeq s a r c ps st).1 false))
        "All policies denied access", (evalSeq s a r c ps st).2)
    ∧ ((evalSeq s a r c ps st).1).length = ps.length := by
  constructor
  · have h0 := checker_evalLoop_all_denied s a r c ps [] st hdeny
    simp only [List.nil_append] at h0
    have hne' : ps.isEmpty = false := by
      cases ps
      · exact absurd rfl hne
      · rfl
    simp [PermissionChecker.evaluate_access, hne', h0]
  · exact evalSeq_length s a r c ps st

/-- Witness for C3 with two always-denying policies. -/
theorem checker_all_denied_spec_witness :
    ([alwaysDenyPolicy, alwaysDenyPolicy] ≠
      ([] : List (Policy Unit Unit Unit Unit Nat)))
    ∧ (((evalSeq () () () () [alwaysDenyPolicy, alwaysDenyPolicy] 0).1.all
        fun res => !res.is_granted) = true)
    ∧ (PermissionChecker.evaluate_access
        ⟨[alwaysDenyPolicy, alwaysDenyPolicy]⟩ () () () () 0 =
        (.Denied
          (EvalTrace.with_root
            (.Combined PERMISSION_CHECKER_POLICY_TYPE .Or
              (evalSeq () () () () [alwaysDenyPolicy, alwaysDenyPolicy] 0).1
              false))
          "All policies denied access",
         (evalSeq () () () () [alwaysDenyPolicy, alwaysDenyPolicy] 0).2)
      ∧ ((evalSeq () () () () [alwaysDenyPolicy, alwaysDenyPolicy] 0).1).length
          = [alwaysDenyPolicy, alwaysDenyPolicy].length) :=
  ⟨by simp, rfl,
    checker_all_denied_spec () () () () 0 [alwaysDenyPolicy, alwaysDenyPolicy]
      (by simp) rfl⟩

/-- C4: an `AndPolicy` evaluation returns a `Combined{AND}` node; if the
policies before `d` all grant along the execution and `d` denies, evaluation
stops at `d`: children are the results so far in evaluation order, the list
has first-denier-index + 1 entries, the outcome is false, and the policies
after `d` are never invoked (output and effect state are unchanged under any
replacement of the suffix).  If all policies grant, the outcome is true with
one child per policy. -/
theorem and_policy_evaluate_spec {S R A C σ : Type} (s : S) (a : A) (r : R)
    (c : C) (st : σ) :
    (∀ (pre post post' : List (Policy S R A C σ)) (d : Policy S R A C σ),
      ((evalSeq s a r c pre st).1.all PolicyEvalResult.is_granted) = true →
      (d.evaluate_access s a r c (evalSeq s a r c pre st).2).1.is_granted
        = false →
      AndPolicy.evaluate_access ⟨pre ++ d :: post⟩ s a r c st =
        (.Combined "AndPolicy" .And
          ((evalSeq s a r c pre st).1 ++
            [(d.evaluate_access s a r c (evalSeq s a r c pre st).2).1])
          false,
         (d.evaluate_access s a r c (evalSeq s a r c pre st).2).2)
      ∧ ((evalSeq s a r c pre st).1 ++
          [(d.evaluate_access s a r c (evalSeq s a r c pre st).2).1]).length
          = pre.length + 1
      ∧ AndPolicy.evaluate_access ⟨pre ++ d :: post⟩ s a r c st =
          AndPolicy.evaluate_access ⟨pre ++ d :: post'⟩ s a r c st)
    ∧ (∀ ps : List (Policy S R A C σ), ps ≠ [] →
      ((evalSeq s a r c ps st).1.all PolicyEvalResult.is_granted) = true →
      AndPolicy.evaluate_access ⟨ps⟩ s a r c st =
        (.Combined "AndPolicy" .And (evalSeq s a r c ps st).1 true,
         (evalSeq s a r c ps st).2)
      ∧ ((evalSeq s a r c ps st).1).length = ps.length) := by
  constructor
  · intro pre post post' d hgrant hd
    have h1 := and_evalLoop_first_denied s a r c pre d post [] st hgrant hd
    have h2 := and_evalLoop_first_denied s a r c pre d post' [] st hgrant hd
    simp only [List.nil_append] at h1 h2
    refine ⟨?_, ?_, ?_⟩
    · simpa [AndPolicy.evaluate_access] using h1
    · simp [evalSeq_length]
    · simp [AndPolicy.evaluate_access, h1, h2]
  · intro ps _ hgrant
    have h1 := and_evalLoop_all_granted s a r c ps [] st hgrant
    simp only [List.nil_append] at h1
    exact ⟨by simpa [AndPolicy.evaluate_access] using h1,
      evalSeq_length s a r c ps st⟩

/-- Witness for C4: `[Allow, Deny, Allow]` stops at the denier and ignores
the suffix; `[Allow, Allow]` evaluates everything with outcome true. -/
theorem and_policy_evaluate_spec_witness :
    (((evalSeq () () () () [alwaysAllowPolicy] 0).1.all
        PolicyEvalResult.is_granted) = true)
    ∧ ((alwaysDenyPolicy.evaluate_access () () () ()
        (evalSeq () () () () [alwaysAllowPolicy] 0).2).1.is_granted = false)
    ∧ (AndPolicy.evaluate_access
        ⟨[alwaysAllowPolicy] ++ alwaysDenyPolicy :: [alwaysAllowPolicy]⟩
        () () () () 0 =
        (.Combined "AndPolicy" .And
          ((evalSeq () () () () [alwaysAllowPolicy] 0).1 ++
            [(alwaysDenyPolicy.evaluate_access () () () ()
              (evalSeq () () () () [alwaysAllowPolicy] 0).2).1])
          false,
         (alwaysDenyPolicy.evaluate_access () () () ()
           (evalSeq () () () () [alwaysAllowPolicy] 0).2).2)
      ∧ ((evalSeq () () () () [alwaysAllowPolicy] 0).1 ++
          [(alwaysDenyPolicy.evaluate_access () () () ()
            (evalSeq () () () () [alwaysAllowPolicy] 0).2).1]).length
          = [alwaysAllowPolicy].length + 1
      ∧ AndPolicy.evaluate_access
          ⟨[alwaysAllowPolicy] ++ alwaysDenyPolicy :: [alwaysAllowPolicy]⟩
          () () () () 0 =
        AndPolicy.evaluate_access
          ⟨[alwaysAllowPolicy] ++ alwaysDenyPolicy :: []⟩ () () () () 0)
    ∧ (([alwaysAllowPolicy, alwaysAllowPolicy] ≠
        ([] : List (Policy Unit Unit Unit Unit Nat)))
      ∧ (AndPolicy.evaluate_access ⟨[alwaysAllowPolicy, alwaysAllowPolicy]⟩
          () () () () 0 =
          (.Combined "AndPolicy" .And
            (evalSeq () () () () [alwaysAllowPolicy, alwaysAllowPolicy] 0).1
            true,
           (evalSeq () () () () [alwaysAllowPolicy, alwaysAllowPolicy] 0).2)
        ∧ ((evalSeq () () () ()
            [alwaysAllowPolicy, alwaysAllowPolicy] 0).1).length
            = [alwaysAllowPolicy, alwaysAllowPolicy].length)) :=
  ⟨rfl, rfl,
    (and_policy_evaluate_spec () () () () 0).1 [alwaysAllowPolicy]
      [alwaysAllowPolicy] [] alwaysDenyPolicy rfl rfl,
    by simp,
    (and_policy_evaluate_spec () () () () 0).2
      [alwaysAllowPolicy, alwaysAllowPolicy] (by simp) rfl⟩

/-- C5: an `OrPolicy` evaluation returns a `Combined{OR}` node; if the
policies before `g` all deny along the execution and `g` grants, evaluation
stops at `g`: children are the results so far in evaluation order (exactly
first-granter-index + 1 entries), the outcome is true, and the policies after
`g` are never invoked.  If every policy denies, all are evaluated and the
outcome is false with one child per policy. -/
theorem or_policy_evaluate_spec {S R A C σ : Type} (s : S) (a : A) (r : R)
    (c : C) (st : σ) :
    (∀ (pre post post' : List (Policy S R A C σ)) (g : Policy S R A C σ),
      ((evalSeq s a r c pre st).1.all fun res => !res.is_granted) = true →
      (g.evaluate_access s a r c (evalSeq s a r c pre st).2).1.is_granted
        = true →
      OrPolicy.evaluate_access ⟨pre ++ g :: post⟩ s a r c st =
        (.Combined "OrPolicy" .Or
          ((evalSeq s a r c pre st).1 ++
            [(g.evaluate_access s a r c (evalSeq s a r c pre st).2).1])
          true,
         (g.evaluate_access s a r c (evalSeq s a r c pre st).2).2)
      ∧ ((evalSeq s a r c pre st).1 ++
          [(g.evaluate_access s a r c (evalSeq s a r c pre st).2).1]).length
          = pre.length + 1
      ∧ OrPolicy.evaluate_access ⟨pre ++ g :: post⟩ s a r c st =
          OrPolicy.evaluate_access ⟨pre ++ g :: post'⟩ s a r c st)
    ∧ (∀ ps : List (Policy S R A C σ), ps ≠ [] →
      ((evalSeq s a r c ps st).1.all fun res => !res.is_granted) = true →
      OrPolicy.evaluate_access ⟨ps⟩ s a r c st =
        (.Combined "OrPolicy" .Or (evalSeq s a r c ps st).1 false,
         (evalSeq s a r c ps st).2)
      ∧ ((evalSeq s a r c ps st).1).length = ps.length) := by
  constructor
  · intro pre post post' g hdeny hg
    have h1 := or_evalLoop_first_granted s a r c pre g post [] st hdeny hg
    have h2 := or_evalLoop_first_granted s a r c pre g post' [] st hdeny hg
    simp only [List.nil_append] at h1 h2
    refine ⟨?_, ?_, ?_⟩
    · simpa [OrPolicy.evaluate_access] using h1
    · simp [evalSeq_length]
    · simp [OrPolicy.evaluate_access, h1, h2]
  · intro ps _ hdeny
    have h1 := or_evalLoop_all_denied s a r c ps [] st hdeny
    simp only [List.nil_append] at h1
    exact ⟨by simpa [OrPolicy.evaluate_access] using h1,
      evalSeq_length s a r c ps st⟩

/-- Witness for C5: `[Deny, Allow, Deny]` stops at the granter and ignores
the suffix; `[Deny, Deny]` evaluates everything with outcome false. -/
theorem or_policy_evaluate_spec_witness :
    (((evalSeq () () () () [alwaysDenyPolicy] 0).1.all
        fun res => !res.is_granted) = true)
    ∧ ((alwaysAllowPolicy.evaluate_access () () () ()
        (evalSeq () () () () [alwaysDenyPolicy] 0).2).1.is_granted = true)
    ∧ (OrPolicy.evaluate_access
        ⟨[alwaysDenyPolicy] ++ alwaysAllowPolicy :: [alwaysDenyPolicy]⟩
        () () () () 0 =
        (.Combined "OrPolicy" .Or
          ((evalSeq () () () () [alwaysDenyPolicy] 0).1 ++
            [(alwaysAllowPolicy.evaluate_access () () () ()
              (evalSeq () () () () [alwaysDenyPolicy] 0).2).1])
          true,
         (alwaysAllowPolicy.evaluate_access () () () ()
           (evalSeq () () () () [alwaysDenyPolicy] 0).2).2)
      ∧ ((evalSeq () () () () [alwaysDenyPolicy] 0).1 ++
          [(alwaysAllowPolicy.evaluate_access () () () ()
            (evalSeq () () () () [alwaysDenyPolicy] 0).2).1]).length
          = [alwaysDenyPolicy].length + 1
      ∧ OrPolicy.evaluate_access
          ⟨[alwaysDenyPolicy] ++ alwaysAllowPolicy :: [alwaysDenyPolicy]⟩
          () () () () 0 =
        OrPolicy.evaluate_access
          ⟨[alwaysDenyPolicy] ++ alwaysAllowPolicy :: []⟩ () () () () 0)
    ∧ (([alwaysDenyPolicy, alwaysDenyPolicy] ≠
        ([] : List (Policy Unit Unit Unit Unit Nat)))
      ∧ (OrPolicy.evaluate_access ⟨[alwaysDenyPolicy, alwaysDenyPolicy]⟩
          () () () () 0 =
          (.Combined "OrPolicy" .Or
            (evalSeq () () () () [alwaysDenyPolicy, alwaysDenyPolicy] 0).1
            false,
           (evalSeq () () () () [alwaysDenyPolicy, alwaysDenyPolicy] 0).2)
        ∧ ((evalSeq () () () ()
            [alwaysDenyPolicy, alwaysDenyPolicy] 0).1).length
            = [alwaysDenyPolicy, alwaysDenyPolicy].length)) :=
  ⟨rfl, rfl,
    (or_policy_evaluate_spec () () () () 0).1 [alwaysDenyPolicy]
      [alwaysDenyPolicy] [] alwaysAllowPolicy rfl rfl,
    by simp,
    (or_policy_evaluate_spec () () () () 0).2
      [alwaysDenyPolicy, alwaysDenyPolicy] (by simp) rfl⟩

lemma match_opt_true {α : Type} (o : Option (α → Bool)) (x : α) :
    ((match o with | none => true | some f => f x) = true) ↔
      (∀ f, o = some f → f x = true) := by
  cases o with
  | none => simp
  | some f => simp

/-- C6 counterexample: the builder-produced denial reasons are capitalized in
the code: a predicate-less Deny-effect policy denies with reason
"Policy denied access", not "policy denied access" as the claim states. -/
theorem builder_deny_reason_cex :
    ((PolicyBuilder.new (S := Unit) (R := Unit) (A := Unit) (C := Unit)
        "p").set_effect .Deny).build.evaluate_access () () () () =
      .Denied "p" "Policy denied access"
    ∧ "Policy denied access" ≠ "policy denied access"
    ∧ ((PolicyBuilder.new (S := Unit) (R := Unit) (A := Unit) (C := Unit)
        "q").subjects (fun _ => false)).build.evaluate_access () () () () =
      .Denied "q" "Policy predicate did not match"
    ∧ "Policy predicate did not match" ≠ "policy predicate did not match" :=
  ⟨rfl, by decide, rfl, by decide⟩

/-- C6 (amended): the built policy's predicate is the logical AND of every
predicate actually set (absent ones vacuously true); when it holds the result
is Granted for effect Allow and Denied with reason "Policy denied access" for
effect Deny; when it fails the result is always Denied with reason
"Policy predicate did not match" regardless of effect; and a fresh builder
with no predicates and the default Allow effect always grants. -/
theorem builder_build_spec {S R A C : Type} (b : PolicyBuilder S R A C)
    (nm : String) (s : S) (a : A) (r : R) (c : C) :
    ((b.build).predicate s a r c = true ↔
      ((∀ f, b.subject_pred = some f → f s = true)
        ∧ (∀ f, b.action_pred = some f → f a = true)
        ∧ (∀ f, b.resource_pred = some f → f r = true)
        ∧ (∀ f, b.context_pred = some f → f c = true)
        ∧ (∀ f, b.extra_condition = some f → f s a r c = true)))
    ∧ ((b.build).predicate s a r c = true →
        (b.effect = .Allow →
          (b.build).evaluate_access s a r c =
            .Granted b.name (some "Policy allowed access"))
        ∧ (b.effect = .Deny →
          (b.build).evaluate_access s a r c =
            .Denied b.name "Policy denied access"))
    ∧ ((b.build).predicate s a r c = false →
        (b.build).evaluate_access s a r c =
          .Denied b.name "Policy predicate did not match")
    ∧ ((PolicyBuilder.new (S := S) (R := R) (A := A) (C := C) nm).build
        |>.evaluate_access s a r c) = .Granted nm (some "Policy allowed access")
    := by
  refine ⟨?_, ?_, ?_, rfl⟩
  · simp only [PolicyBuilder.build, Bool.and_eq_true, match_opt_true,
      and_assoc]
    cases b.extra_condition with
    | none => simp
    | some f => simp
  · intro hpred
    have hh : (b.build).evaluate_access s a r c =
        match b.effect with
        | Effect.Allow =>
          PolicyEvalResult.Granted b.name (some "Policy allowed access")
        | Effect.Deny =>
          PolicyEvalResult.Denied b.name "Policy denied access" := by
      unfold InternalPolicy.evaluate_access
      rw [hpred]
      rfl
    constructor
    · intro heff
      rw [hh, heff]
    · intro heff
      rw [hh, heff]
  · intro hpred
    unfold InternalPolicy.evaluate_access
    rw [hpred]
    rfl

/-- Witness for the amended C6 theorem: a Deny-effect predicate-less builder,
a non-matching subject predicate, and a fresh default builder. -/
theorem builder_build_spec_witness :
    ((((PolicyBuilder.new (S := Unit) (R := Unit) (A := Unit) (C := Unit)
        "p").set_effect .Deny).build).predicate () () () () = true)
    ∧ ((((PolicyBuilder.new (S := Unit) (R := Unit) (A := Unit) (C := Unit)
        "p").set_effect .Deny).effect = Effect.Deny))
    ∧ ((((PolicyBuilder.new (S := Unit) (R := Unit) (A := Unit) (C := Unit)
        "p").set_effect .Deny).build).evaluate_access () () () () =
        .Denied "p" "Policy denied access")
    ∧ ((((PolicyBuilder.new (S := Unit) (R := Unit) (A := Unit) (C := Unit)
        "q").subjects (fun _ => false)).build).predicate () () () () = false)
    ∧ ((((PolicyBuilder.new (S := Unit) (R := Unit) (A := Unit) (C := Unit)
        "q").subjects (fun _ => false)).build).evaluate_access () () () () =
        .Denied "q" "Policy predicate did not match")
    ∧ (((PolicyBuilder.new (S := Unit) (R := Unit) (A := Unit) (C := Unit)
        "d").build).evaluate_access () () () () =
        .Granted "d" (some "Policy allowed access")) :=
  ⟨rfl, rfl,
    ((builder_build_spec
      ((PolicyBuilder.new (S := Unit) (R := Unit) (A := Unit) (C := Unit)
        "p").set_effect .Deny) "d" () () () ()).2.1 rfl).2 rfl,
   rfl,
    (builder_build_spec
      ((PolicyBuilder.new (S := Unit) (R := Unit) (A := Unit) (C := Unit)
        "q").subjects (fun _ => false)) "d" () () () ()).2.2.1 rfl,
    (builder_build_spec
      (PolicyBuilder.new (S := Unit) (R := Unit) (A := Unit) (C := Unit)
        "x") "d" () () () ()).2.2.2⟩

/-- C7: every `Combined` node produced at the root by `AndPolicy`, `OrPolicy`,
`NotPolicy` or a non-empty `PermissionChecker` has an outcome (as read by
`is_granted`) equal to its operation applied to its children's outcomes
(AND: all granted; OR: any granted; NOT: negation of the single child), and
the children are the results of the evaluated prefix in evaluation order. -/
theorem combined_outcome_invariant_spec {S R A C σ : Type} (s : S) (a : A)
    (r : R) (c : C) (st : σ) :
    (∀ ps : List (Policy S R A C σ), ∃ n, n ≤ ps.length ∧
      (AndPolicy.evaluate_access ⟨ps⟩ s a r c st).1 =
        .Combined "AndPolicy" .And (evalSeq s a r c (ps.take n) st).1
          (((evalSeq s a r c (ps.take n) st).1).all
            PolicyEvalResult.is_granted))
    ∧ (∀ ps : List (Policy S R A C σ), ∃ n, n ≤ ps.length ∧
      (OrPolicy.evaluate_access ⟨ps⟩ s a r c st).1 =
        .Combined "OrPolicy" .Or (evalSeq s a r c (ps.take n) st).1
          (((evalSeq s a r c (ps.take n) st).1).any
            PolicyEvalResult.is_granted))
    ∧ (∀ p : Policy S R A C σ,
      (NotPolicy.evaluate_access ⟨p⟩ s a r c st).1 =
        .Combined "NotPolicy" .Not [(p.evaluate_access s a r c st).1]
          (!((p.evaluate_access s a r c st).1.is_granted)))
    ∧ (∀ ps : List (Policy S R A C σ), ps ≠ [] → ∃ n, n ≤ ps.length ∧
      ((PermissionChecker.evaluate_access ⟨ps⟩ s a r c st).1).trace =
        EvalTrace.with_root
          (.Combined PERMISSION_CHECKER_POLICY_TYPE .Or
            (evalSeq s a r c (ps.take n) st).1
            (((evalSeq s a r c (ps.take n) st).1).any
              PolicyEvalResult.is_granted)))
    ∧ (∀ (pt : String) (op : CombineOp) (ch : List PolicyEvalResult)
        (out : Bool),
      (PolicyEvalResult.Combined pt op ch out).is_granted = out) := by
  refine ⟨?_, ?_, ?_, ?_, fun _ _ _ _ => rfl⟩
  · intro ps
    obtain ⟨n, hn, he⟩ := and_evalLoop_char s a r c ps [] st rfl
    refine ⟨n, hn, ?_⟩
    have := congrArg Prod.fst he
    simpa [AndPolicy.evaluate_access] using this
  · intro ps
    obtain ⟨n, hn, he⟩ := or_evalLoop_char s a r c ps [] st rfl
    refine ⟨n, hn, ?_⟩
    have := congrArg Prod.fst he
    simpa [OrPolicy.evaluate_access] using this
  · intro p
    rfl
  · intro ps hne
    obtain ⟨n, hn, he⟩ := checker_evalLoop_char s a r c ps [] st rfl
    have hne' : ps.isEmpty = false := by
      cases ps
      · exact absurd rfl hne
      · rfl
    refine ⟨n, hn, ?_⟩
    simpa [PermissionChecker.evaluate_access, hne'] using he

/-- Witness for C7 on concrete policy lists over `Unit` inputs. -/
theorem combined_outcome_invariant_spec_witness :
    (∃ n, n ≤ [alwaysAllowPolicy, alwaysDenyPolicy].length ∧
      (AndPolicy.evaluate_access ⟨[alwaysAllowPolicy, alwaysDenyPolicy]⟩
        () () () () 0).1 =
        .Combined "AndPolicy" .And
          (evalSeq () () () ()
            ([alwaysAllowPolicy, alwaysDenyPolicy].take n) 0).1
          (((evalSeq () () () ()
            ([alwaysAllowPolicy, alwaysDenyPolicy].take n) 0).1).all
            PolicyEvalResult.is_granted))
    ∧ (∃ n, n ≤ [alwaysDenyPolicy, alwaysAllowPolicy].length ∧
      (OrPolicy.evaluate_access ⟨[alwaysDenyPolicy, alwaysAllowPolicy]⟩
        () () () () 0).1 =
        .Combined "OrPolicy" .Or
          (evalSeq () () () ()
            ([alwaysDenyPolicy, alwaysAllowPolicy].take n) 0).1
          (((evalSeq () () () ()
            ([alwaysDenyPolicy, alwaysAllowPolicy].take n) 0).1).any
            PolicyEvalResult.is_granted))
    ∧ ((NotPolicy.evaluate_access ⟨alwaysAllowPolicy⟩ () () () () 0).1 =
        .Combined "NotPolicy" .Not
          [(alwaysAllowPolicy.evaluate_access () () () () 0).1]
          (!((alwaysAllowPolicy.evaluate_access () () () () 0).1.is_granted)))
    ∧ (([alwaysDenyPolicy] ≠ ([] : List (Policy Unit Unit Unit Unit Nat)))
      ∧ ∃ n, n ≤ [alwaysDenyPolicy].length ∧
        ((PermissionChecker.evaluate_access ⟨[alwaysDenyPolicy]⟩
          () () () () 0).1).trace =
          EvalTrace.with_root
            (.Combined PERMISSION_CHECKER_POLICY_TYPE .Or
              (evalSeq () () () () ([alwaysDenyPolicy].take n) 0).1
              (((evalSeq () () () () ([alwaysDenyPolicy].take n) 0).1).any
                PolicyEvalResult.is_granted))) :=
  ⟨(combined_outcome_invariant_spec () () () () 0).1
      [alwaysAllowPolicy, alwaysDenyPolicy],
   (combined_outcome_invariant_spec () () () () 0).2.1
      [alwaysDenyPolicy, alwaysAllowPolicy],
   (combined_outcome_invariant_spec () () () () 0).2.2.1 alwaysAllowPolicy,
   by simp,
   (combined_outcome_invariant_spec () () () () 0).2.2.2.1
      [alwaysDenyPolicy] (by simp)⟩

/-- C8: `AndPolicy.try_new` and `OrPolicy.try_new` fail with their typed
`EmptyPoliciesError` exactly on the empty policy list and succeed otherwise;
`NotPolicy.new` is total and never fails. -/
theorem combinator_construction_spec {S R A C σ : Type}
    (ps : List (Policy S R A C σ)) (p : Policy S R A C σ) :
    (AndPolicy.try_new ps =
        .error ⟨"AndPolicy must have at least one policy"⟩ ↔ ps = [])
    ∧ (OrPolicy.try_new ps =
        .error ⟨"OrPolicy must have at least one policy"⟩ ↔ ps = [])
    ∧ (ps ≠ [] → AndPolicy.try_new ps = .ok ⟨ps⟩)
    ∧ (ps ≠ [] → OrPolicy.try_new ps = .ok ⟨ps⟩)
    ∧ NotPolicy.new p = ⟨p⟩ := by
  cases ps <;> simp [AndPolicy.try_new, OrPolicy.try_new, NotPolicy.new]

/-- Witness for C8 on concrete empty and singleton policy lists. -/
theorem combinator_construction_spec_witness :
    (AndPolicy.try_new ([] : List (Policy Unit Unit Unit Unit Nat)) =
      .error ⟨"AndPolicy must have at least one policy"⟩)
    ∧ (OrPolicy.try_new ([] : List (Policy Unit Unit Unit Unit Nat)) =
      .error ⟨"OrPolicy must have at least one policy"⟩)
    ∧ ([alwaysDenyPolicy] ≠ ([] : List (Policy Unit Unit Unit Unit Nat)))
    ∧ (AndPolicy.try_new [alwaysDenyPolicy] = .ok ⟨[alwaysDenyPolicy]⟩)
    ∧ (OrPolicy.try_new [alwaysDenyPolicy] = .ok ⟨[alwaysDenyPolicy]⟩)
    ∧ NotPolicy.new alwaysDenyPolicy = ⟨alwaysDenyPolicy⟩ :=
  ⟨(combinator_construction_spec [] alwaysDenyPolicy).1.mpr rfl,
   (combinator_construction_spec [] alwaysDenyPolicy).2.1.mpr rfl,
   by simp,
   (combinator_construction_spec [alwaysDenyPolicy] alwaysDenyPolicy).2.2.1
     (by simp),
   (combinator_construction_spec [alwaysDenyPolicy] alwaysDenyPolicy).2.2.2.1
     (by simp),
   (combinator_construction_spec [alwaysDenyPolicy] alwaysDenyPolicy).2.2.2.2⟩

/-- C9: for two `AndPolicy` (resp. `OrPolicy`) instances whose policy lists
are permutations of each other and whose members are all pure (result depends
only on the four inputs), evaluation at the same subject, action, resource
and context yields the same final outcome. -/
theorem perm_outcome_spec {S R A C σ : Type} (s : S) (a : A) (r : R) (c : C)
    (st st' : σ) (ps qs : List (Policy S R A C σ))
    (hne : ps ≠ []) (hperm : List.Perm ps qs)
    (hpure : ∀ p ∈ ps, p.IsPure) :
    ((AndPolicy.evaluate_access ⟨ps⟩ s a r c st).1.is_granted =
      (AndPolicy.evaluate_access ⟨qs⟩ s a r c st').1.is_granted)
    ∧ ((OrPolicy.evaluate_access ⟨ps⟩ s a r c st).1.is_granted =
      (OrPolicy.evaluate_access ⟨qs⟩ s a r c st').1.is_granted) := by
  have hpure' : ∀ p ∈ qs, p.IsPure := fun p hp =>
    hpure p (hperm.mem_iff.mpr hp)
  constructor
  · rw [AndPolicy.evaluate_access, AndPolicy.evaluate_access,
      and_evalLoop_pure_outcome s a r c st ps hpure [] st,
      and_evalLoop_pure_outcome s a r c st qs hpure' [] st']
    exact perm_all_eq hperm _
  · rw [OrPolicy.evaluate_access, OrPolicy.evaluate_access,
      or_evalLoop_pure_outcome s a r c st ps hpure [] st,
      or_evalLoop_pure_outcome s a r c st qs hpure' [] st']
    exact perm_any_eq hperm _

/-- Witness for C9: `[Deny, Allow]` against its swap `[Allow, Deny]`. -/
theorem perm_outcome_spec_witness :
    ([alwaysDenyPolicy, alwaysAllowPolicy] ≠
      ([] : List (Policy Unit Unit Unit Unit Nat)))
    ∧ List.Perm [alwaysDenyPolicy, alwaysAllowPolicy]
        [alwaysAllowPolicy, alwaysDenyPolicy]
    ∧ (∀ p ∈ [alwaysDenyPolicy, alwaysAllowPolicy], p.IsPure)
    ∧ ((AndPolicy.evaluate_access ⟨[alwaysDenyPolicy, alwaysAllowPolicy]⟩
        () () () () 0).1.is_granted =
      (AndPolicy.evaluate_access ⟨[alwaysAllowPolicy, alwaysDenyPolicy]⟩
        () () () () 5).1.is_granted)
    ∧ ((OrPolicy.evaluate_access ⟨[alwaysDenyPolicy, alwaysAllowPolicy]⟩
        () () () () 0).1.is_granted =
      (OrPolicy.evaluate_access ⟨[alwaysAllowPolicy, alwaysDenyPolicy]⟩
        () () () () 5).1.is_granted) := by
  have hperm : List.Perm [alwaysDenyPolicy, alwaysAllowPolicy]
      [alwaysAllowPolicy, alwaysDenyPolicy] :=
    List.Perm.swap alwaysAllowPolicy alwaysDenyPolicy []
  have hpure : ∀ p ∈ [alwaysDenyPolicy, alwaysAllowPolicy], p.IsPure := by
    intro p hp
    rcases List.mem_cons.mp hp with h | h
    · rw [h]; exact alwaysDenyPolicy_pure
    · rw [List.mem_singleton.mp h]; exact alwaysAllowPolicy_pure
  have hmain := perm_outcome_spec () () () () 0 5
    [alwaysDenyPolicy, alwaysAllowPolicy]
    [alwaysAllowPolicy, alwaysDenyPolicy] (by simp) hperm hpure
  exact ⟨by simp, hperm, hpure, hmain.1, hmain.2⟩

/-- C10: `AccessEvaluation.is_granted` holds exactly on the Granted variant;
`to_result` returns Ok exactly when `is_granted` is true, and on a Denied
value returns the error built from that denial's summary reason. -/
theorem access_evaluation_to_result_spec {E : Type} (ev : AccessEvaluation)
    (error_fn : String → E) (t : EvalTrace) (reason : String) :
    (ev.is_granted = true ↔ ∃ pt rs tr, ev = .Granted pt rs tr)
    ∧ (ev.to_result error_fn = .ok () ↔ ev.is_granted = true)
    ∧ ((AccessEvaluation.Denied t reason).to_result error_fn =
        .error (error_fn reason)) := by
  refine ⟨?_, ?_, rfl⟩
  · cases ev with
    | Granted pt rs tr =>
      simp [AccessEvaluation.is_granted]
    | Denied tr rs =>
      simp [AccessEvaluation.is_granted]
  · cases ev with
    | Granted pt rs tr =>
      simp [AccessEvaluation.is_granted, AccessEvaluation.to_result]
    | Denied tr rs =>
      simp [AccessEvaluation.is_granted, AccessEvaluation.to_result]
